import Mathlib

/-!
Verification of the collection-task dispatcher of `taranis-ai`
(`src/worker/worker/collectors/collector_tasks.py`) together with the user
model (`src/core/core/model/user.py`) and the base authenticator
(`src/core/auth/base_authenticator.py`).

The Python code is shallowly embedded: external collaborators (the
control-plane client `CoreApi`, the concrete fetcher implementations, the
user lookup) are passed in as an explicit environment of pure functions,
and the side-effecting calls the dispatcher issues (log lines, status
updates, downstream triggers, fetcher invocations) are recorded in an
explicit effect trace returned alongside each result.
-/

namespace Taranis

/-- Observable side effects issued by the collector module: log calls,
control-plane calls (`update_osintsource_status`,
`run_post_collection_bots`) and fetcher invocations
(`collector.collect(source, manual)` / `collector.preview_collector(source)`). -/
inductive Effect where
  | logCritical (msg : String)
  | logError (msg : String)
  | logInfo (msg : String)
  /-- Call `core_api.update_osintsource_status(source_id, {"error": err})`:
  the second argument is the string under the `"error"` key of the body. -/
  | updateStatus (sourceId : String) (err : String)
  /-- Call `core_api.run_post_collection_bots(source_id)`: the downstream trigger. -/
  | runPostCollectionBots (sourceId : String)
  /-- Invocation of a concrete fetcher's `collect(source, manual)`. -/
  | collectCall (collectorName : String) (sourceId : String) (manual : Bool)
  /-- Invocation of a concrete fetcher's `preview_collector(source)`. -/
  | previewCall (collectorName : String) (sourceId : String)
  deriving DecidableEq, Repr

/-- Roles of `Effect` needed by the frame conditions. -/
def Effect.isStatusUpdate : Effect → Bool
  | .updateStatus _ _ => true
  | _ => false

def Effect.isDownstreamTrigger : Effect → Bool
  | .runPostCollectionBots _ => true
  | _ => false

def Effect.isCollectCall : Effect → Bool
  | .collectCall _ _ _ => true
  | _ => false

/-- A source configuration as the dispatcher sees it: the dict returned by
`core_api.get_osint_source`.  Only the fields the dispatcher reads are kept:
`source["id"]` and `source.get("type")` (absent key modelled as `none`). -/
structure OSINTSource where
  id : String
  type : Option String
  deriving DecidableEq, Repr

/-- Result of the control-plane call `core_api.get_osint_source(source_id)`:
it can raise a `ConnectionError` (whose stringification is `msg`), return a
falsy value (`None` / empty dict — "not found"), or return the source dict. -/
inductive GetSourceResult where
  | connectionError (msg : String)
  | notFound
  | found (source : OSINTSource)
  deriving DecidableEq, Repr

/-- Environment of external collaborators: the control-plane lookup and the
behaviour of each concrete fetcher (identified by its registry name).  A
fetcher's `collect` returns `none` on success and `some err` for an error
string, exactly the convention of `BaseCollector.collect` as consumed by the
dispatcher; `preview` returns the preview payload (opaque here). -/
structure CollectorEnv where
  getSource : String → GetSourceResult
  collect : String → OSINTSource → Bool → Option String
  preview : String → OSINTSource → String

/-- Python truthiness of an optional string (`if err:`): `None` and the
empty string are falsy. -/
def truthy : Option String → Bool
  | none => false
  | some s => s ≠ ""

/-- The keys of the registry `Collector.collectors` built in
`Collector.__init__`. -/
def collectorNames : List String :=
  ["rss_collector", "simple_web_collector", "rt_collector"]

/-- Embeds `self.collectors.get(collector_type)`: registry lookup; the resolved
collector is represented by its registry name. -/
def collectorsGet (collectorType : String) : Option String :=
  if collectorNames.contains collectorType then some collectorType else none

/-- Embeds `Collector.get_source`: resolve the source via the control plane.
Returns `(source, err)` plus the trace of log effects. -/
def getSourceStep (env : CollectorEnv) (sourceId : String) :
    (Option OSINTSource × Option String) × List Effect :=
  match env.getSource sourceId with
  | .connectionError e => ((none, some e), [.logCritical e])
  | .notFound =>
      ((none, some s!"Source with id {sourceId} not found"),
       [.logError s!"Source with id {sourceId} not found"])
  | .found source => ((some source, none), [])

/-- Embeds `Collector.get_collector`: read the source-type tag and look it up in
the registry.  A falsy tag (absent or empty) yields the
"has no collector_type" error; a lookup miss yields the
"not implemented" error. -/
def getCollectorStep (source : OSINTSource) :
    (Option String × Option String) × List Effect :=
  match source.type with
  | none =>
      ((none, some s!"Source {source.id} has no collector_type"),
       [.logError s!"Source {source.id} has no collector_type"])
  | some t =>
      if t = "" then
        ((none, some s!"Source {source.id} has no collector_type"),
         [.logError s!"Source {source.id} has no collector_type"])
      else
        match collectorsGet t with
        | some c => ((some c, none), [])
        | none => ((none, some s!"Collector {t} not implemented"), [])

/-- The skip sentinel matched by `Collector.collect_by_source_id`. -/
def skipSentinel : String := "Last-Modified < Last-Attempted"

/-- Embeds `Collector.collect_by_source_id(source_id, manual)`: the dispatcher.
Returns the Python return value (`None` for success, an error string
otherwise, with `"Skipping source"` replacing the skip sentinel) together
with the effect trace. -/
def collect_by_source_id (env : CollectorEnv) (sourceId : String)
    (manual : Bool) : Option String × List Effect :=
  match getSourceStep env sourceId with
  | ((none, err), fx₁) => (err, fx₁)
  | ((some source, err), fx₁) =>
      if truthy err then (err, fx₁)
      else
        match getCollectorStep source with
        | ((none, err₂), fx₂) => (err₂, fx₁ ++ fx₂)
        | ((some c, err₂), fx₂) =>
            if truthy err₂ then (err₂, fx₁ ++ fx₂)
            else
              let fxc := [Effect.collectCall c source.id manual]
              match env.collect c source manual with
              | none => (none, fx₁ ++ fx₂ ++ fxc)
              | some e =>
                  if e = "" then (none, fx₁ ++ fx₂ ++ fxc)
                  else if e = skipSentinel then
                    (some "Skipping source", fx₁ ++ fx₂ ++ fxc)
                  else
                    (some e,
                     fx₁ ++ fx₂ ++ fxc ++ [Effect.updateStatus sourceId e])

/-- Celery registration attributes of `class CollectorTask(Task)`. -/
def CollectorTask.name : String := "collector_task"

def CollectorTask.max_retries : Nat := 3

def CollectorTask.priority : Nat := 5

def CollectorTask.default_retry_delay : Nat := 60

def CollectorTask.time_limit : Nat := 60

def CollectorTask.ignore_result : Bool := true

/-- Embeds `CollectorTask.run(source_id, manual)`: the collection-task entry point.
Returns the task result string and the effect trace. -/
def CollectorTask.run (env : CollectorEnv) (sourceId : String)
    (manual : Bool) : String × List Effect :=
  let fx₀ := [Effect.logInfo s!"Starting collector task {CollectorTask.name}"]
  let (res, fx) := collect_by_source_id env sourceId manual
  if truthy res then (res.getD "", fx₀ ++ fx)
  else
    (s!"Succesfully collected source {sourceId}",
     fx₀ ++ fx ++ [Effect.runPostCollectionBots sourceId])

/-- Celery registration attributes of the `@shared_task` decorator on
`collector_preview`. -/
def collectorPreviewTask.name : String := "collector_preview"

def collectorPreviewTask.time_limit : Nat := 50

def collectorPreviewTask.track_started : Bool := true

def collectorPreviewTask.acks_late : Bool := true

def collectorPreviewTask.priority : Nat := 8

/-- Return value of `collector_preview`: either the error branch
(`err`, which may be Python `None`) or the preview payload. -/
inductive PreviewReturn where
  | err (e : Option String)
  | preview (payload : String)
  deriving DecidableEq, Repr

/-- Embeds `collector_preview(source_id)`: the preview-task entry point. -/
def collector_preview (env : CollectorEnv) (sourceId : String) :
    PreviewReturn × List Effect :=
  match getSourceStep env sourceId with
  | ((none, e), fx₁) => (.err e, fx₁)
  | ((some source, e), fx₁) =>
      if truthy e then (.err e, fx₁)
      else
        match getCollectorStep source with
        | ((none, e₂), fx₂) => (.err e₂, fx₁ ++ fx₂)
        | ((some c, e₂), fx₂) =>
            if truthy e₂ then (.err e₂, fx₁ ++ fx₂)
            else
              (.preview (env.preview c source),
               fx₁ ++ fx₂ ++ [Effect.previewCall c source.id])

/-! ## The user model (`src/core/core/model/user.py`) -/

/-- A related `Organization` row, as read through the `organization`
relationship of `User`. -/
structure Organization where
  id : Int
  name : String
  deriving DecidableEq, Repr

/-- A related `Role` row; `permissions` holds the permission ids contributed
by `Role.get_permissions` (the `Role` model itself is outside this excerpt). -/
structure Role where
  id : Int
  permissions : List String
  deriving DecidableEq, Repr

/-- The `User` record: the mapped columns declared in `user.py`
(`id`, `username`, `name`, `password` — stored hashed —, `organization_id`,
`profile_id`) together with the relationships the serializers read.
`organization = none` models a `NULL` relationship. -/
structure User where
  id : Int
  username : String
  name : String
  password : String
  organization : Option Organization
  roles : List Role
  permissions : List String
  profileId : Option Int
  deriving DecidableEq, Repr

/-- Values stored in a serialized dict. -/
inductive DVal where
  | int (n : Int)
  | str (s : String)
  | intList (l : List Int)
  | strList (l : List String)
  | null
  deriving DecidableEq, Repr

/-- A Python dict with string keys, as an insertion-ordered association
list. -/
abbrev PyDict := List (String × DVal)

/-- Python `del data[k]`: remove the key. -/
def dictDel (d : PyDict) (k : String) : PyDict :=
  d.filter (fun p => p.1 ≠ k)

/-- Python `data.pop(k)`: look up and remove the key. -/
def dictPop (d : PyDict) (k : String) : Option DVal × PyDict :=
  (d.lookup k, dictDel d k)

/-- Python `data[k] = v`: overwrite in place if present, append otherwise. -/
def dictSet (d : PyDict) (k : String) (v : DVal) : PyDict :=
  match d with
  | [] => [(k, v)]
  | (k₁, v₁) :: rest =>
      if k₁ = k then (k, v) :: rest else (k₁, v₁) :: dictSet rest k v

/-- Modelled from the spec: `BaseModel.to_dict` (from
`core/model/base_model.py`, which is not part of the excerpt) serializes
every mapped column of the record into a dict keyed by column name; for
`User` those columns are the ones declared in `user.py`: `id`, `username`,
`name`, `password`, `organization_id`, `profile_id`. -/
def baseToDict (u : User) : PyDict :=
  [("id", .int u.id),
   ("username", .str u.username),
   ("name", .str u.name),
   ("password", .str u.password),
   ("organization_id",
     match u.organization with
     | some org => .int org.id
     | none => .null),
   ("profile_id",
     match u.profileId with
     | some p => .int p
     | none => .null)]

/-- Embeds `User.to_dict`: serialize, drop the password, rename
`organization_id` to `organization`, and add role/permission id lists. -/
def User.to_dict (u : User) : PyDict :=
  let data := baseToDict u
  let data := dictDel data "password"
  let (orgVal, data) := dictPop data "organization_id"
  let data := dictSet data "organization" (orgVal.getD .null)
  let data := dictSet data "roles" (.intList (u.roles.map (·.id)))
  let data := dictSet data "permissions" (.strList u.permissions)
  data

/-- Embeds `Role.get_permissions` (the `Role` model is outside this excerpt):
the permission ids granted by the role. -/
def Role.get_permissions (r : Role) : List String := r.permissions

/-- Embeds `User.get_permissions`: the union of the user's direct permission ids
with each role's permissions.  Python builds a `set` and lists it; the
unspecified set order is modelled as first-occurrence order. -/
def User.get_permissions (u : User) : List String :=
  (u.permissions ++ u.roles.flatMap Role.get_permissions).eraseDups

/-- Embeds `User.get_current_organization_name`. -/
def User.get_current_organization_name (u : User) : String :=
  match u.organization with
  | some org => org.name
  | none => ""

/-! ## The base authenticator (`src/core/auth/base_authenticator.py`) -/

/-- Observable side effects of `BaseAuthenticator.generate_jwt`: the two
audit-log calls and the `create_access_token` call (recorded with the
identity and the user claims it carries). -/
inductive AuthEffect where
  | storeAuthErrorActivity (msg : String)
  | storeUserActivity (userId : Int) (activityType : String) (detail : String)
  | createAccessToken (identity : String) (uid : Int) (name : String)
      (organizationName : String) (permissions : List String)
  deriving DecidableEq, Repr

def AuthEffect.isCreateAccessToken : AuthEffect → Bool
  | .createAccessToken _ _ _ _ _ => true
  | _ => false

/-- Environment of the authenticator: the user lookup `User.find`
(resolved by the model layer outside this excerpt) and the opaque token
minting of `flask_jwt_extended.create_access_token`. -/
structure AuthEnv where
  find : String → Option User
  createToken : String → String

/-- Embeds `BaseAuthenticator.generate_error`: `{"error": "Authentication failed"}, 401`. -/
def generate_error : List (String × String) × Nat :=
  ([("error", "Authentication failed")], 401)

/-- Embeds `BaseAuthenticator.generate_jwt(username)`: on a failed lookup, log the
auth error and return `generate_error`; otherwise log the login and return
`{"access_token": ...}, 200`.  The body is a dict of string values; the
effect trace records the audit-log and token-creation calls in order. -/
def generate_jwt (env : AuthEnv) (username : String) :
    (List (String × String) × Nat) × List AuthEffect :=
  match env.find username with
  | none =>
      (generate_error,
       [.storeAuthErrorActivity
          ("User not exists after authentication: " ++ username)])
  | some user =>
      (([("access_token", env.createToken user.username)], 200),
       [.storeUserActivity user.id "LOGIN" "Successful",
        .createAccessToken user.username user.id user.name
          (User.get_current_organization_name user)
          (User.get_permissions user)])

/-- Modelled from the spec: one attempt of a queued task, as the queue
observes it — the body either completes with a returned result value or
raises an exception out of dispatch. -/
inductive TaskAttempt where
  | completed (result : String) (fx : List Effect)
  | raised (exc : String)
  deriving DecidableEq, Repr

/-- Modelled from the spec: the queue's retry rule for the collection task
(§5) — the retry policy fires "on any exception raised out of dispatch",
while "explicit terminal outcomes returned as values ... are not retried —
they complete the task immediately".  A completed attempt is therefore
retried zero times; only a raising attempt is re-enqueued, up to
`max_retries` times. -/
def queueRetryCount : TaskAttempt → Nat
  | .completed _ _ => 0
  | .raised _ => CollectorTask.max_retries

/-- One attempt of the collection task.  `CollectorTask.run` is a total
function — every failure mode of the excerpt, the `ConnectionError` of the
config fetch included (caught by `except ConnectionError as e` in
`get_source`), is converted to a returned result string — so the attempt
always completes with a value and never raises. -/
def collectorTaskAttempt (env : CollectorEnv) (sid : String)
    (manual : Bool) : TaskAttempt :=
  .completed (CollectorTask.run env sid manual).1
    (CollectorTask.run env sid manual).2

/-! ## Helper lemmas -/

theorem getSourceStep_connectionError {env : CollectorEnv} {sid msg : String}
    (h : env.getSource sid = .connectionError msg) :
    getSourceStep env sid = ((none, some msg), [.logCritical msg]) := by
  unfold getSourceStep; rw [h]

theorem getSourceStep_notFound {env : CollectorEnv} {sid : String}
    (h : env.getSource sid = .notFound) :
    getSourceStep env sid =
      ((none, some s!"Source with id {sid} not found"),
       [.logError s!"Source with id {sid} not found"]) := by
  unfold getSourceStep; rw [h]

theorem getSourceStep_found {env : CollectorEnv} {sid : String}
    {src : OSINTSource} (h : env.getSource sid = .found src) :
    getSourceStep env sid = ((some src, none), []) := by
  unfold getSourceStep; rw [h]

theorem collectorsGet_eq_some {t c : String} (h : collectorsGet t = some c) :
    c = t ∧ t ≠ "" := by
  unfold collectorsGet at h
  split at h
  next hm =>
    injection h with h'
    subst h'
    refine ⟨rfl, ?_⟩
    intro ht
    rw [ht] at hm
    exact absurd hm (by decide)
  next => exact absurd h (by simp)

theorem getCollectorStep_resolved {src : OSINTSource} {t c : String}
    (ht : src.type = some t) (hc : collectorsGet t = some c) :
    getCollectorStep src = ((some c, none), []) := by
  obtain ⟨hct, hne⟩ := collectorsGet_eq_some hc
  subst hct
  simp [getCollectorStep, ht, hne, hc]

/-- After a successfully resolved source and collector, the dispatcher's
value and trace are a function of the fetcher's outcome. -/
theorem collect_by_source_id_resolved {env : CollectorEnv} {sid t c : String}
    {src : OSINTSource} (manual : Bool)
    (hs : env.getSource sid = .found src) (ht : src.type = some t)
    (hc : collectorsGet t = some c) :
    collect_by_source_id env sid manual =
      (match env.collect c src manual with
       | none => (none, [Effect.collectCall c src.id manual])
       | some e =>
           if e = "" then (none, [Effect.collectCall c src.id manual])
           else if e = skipSentinel then
             (some "Skipping source", [Effect.collectCall c src.id manual])
           else
             (some e,
              [Effect.collectCall c src.id manual,
               Effect.updateStatus sid e])) := by
  unfold collect_by_source_id
  rw [getSourceStep_found hs]
  simp only [truthy, getCollectorStep_resolved ht hc, List.nil_append]
  cases env.collect c src manual with
  | none => rfl
  | some e =>
      by_cases he : e = ""
      · simp [he]
      · by_cases hk : e = skipSentinel <;> simp [he, hk]

/-! ## Claim theorems -/

/-- C1 (amended): if the control-plane config fetch raises a transport
error, the collection-task result is the stringified transport error and the
error is logged at critical severity; but `get_source` catches the
`ConnectionError` and returns it as a value, so the attempt completes
normally and the queue performs zero retries — the task's declared retry
policy (`max_retries = 3`, `default_retry_delay = 60`) applies only to
exceptions raised out of dispatch, which this path never raises. -/
theorem transport_error_caught_not_retried (env : CollectorEnv)
    (sid msg : String) (manual : Bool) (hmsg : msg ≠ "")
    (h : env.getSource sid = .connectionError msg) :
    (CollectorTask.run env sid manual).1 = msg ∧
    Effect.logCritical msg ∈ (CollectorTask.run env sid manual).2 ∧
    queueRetryCount (collectorTaskAttempt env sid manual) = 0 ∧
    CollectorTask.max_retries = 3 ∧ CollectorTask.default_retry_delay = 60 := by
  have h2 : collect_by_source_id env sid manual =
      (some msg, [.logCritical msg]) := by
    unfold collect_by_source_id
    rw [getSourceStep_connectionError h]
  unfold CollectorTask.run
  rw [h2]
  simp [truthy, hmsg, queueRetryCount, collectorTaskAttempt,
    CollectorTask.max_retries, CollectorTask.default_retry_delay]

def envConn : CollectorEnv where
  getSource := fun _ => .connectionError "connection refused"
  collect := fun _ _ _ => none
  preview := fun _ _ => ""

theorem transport_error_caught_not_retried_witness :
    (CollectorTask.run envConn "s1" true).1 = "connection refused" ∧
    Effect.logCritical "connection refused" ∈ (CollectorTask.run envConn "s1" true).2 ∧
    queueRetryCount (collectorTaskAttempt envConn "s1" true) = 0 ∧
    CollectorTask.max_retries = 3 ∧ CollectorTask.default_retry_delay = 60 :=
  transport_error_caught_not_retried envConn "s1" "connection refused" true
    (by decide) rfl

/-- C1 counterexample: at a concrete transport error the task result is the
stringified error and the critical log is emitted, yet the attempt completes
with a returned value and the queue performs zero retries — not the
up-to-3 retries at 60-second intervals the claim asserts. -/
theorem transport_error_zero_retries_cex :
    (CollectorTask.run envConn "s1" false).1 = "connection refused" ∧
    Effect.logCritical "connection refused" ∈ (CollectorTask.run envConn "s1" false).2 ∧
    queueRetryCount (collectorTaskAttempt envConn "s1" false) = 0 ∧
    queueRetryCount (collectorTaskAttempt envConn "s1" false) ≠ 3 := by
  exact ⟨by decide, by decide, rfl, by decide⟩

/-- C2: when the fetcher returns the skip sentinel
`"Last-Modified < Last-Attempted"`, dispatch returns `"Skipping source"`
and issues zero status-update calls. -/
theorem skip_outcome_returns_skipping (env : CollectorEnv)
    (sid t c : String) (src : OSINTSource) (manual : Bool)
    (hs : env.getSource sid = .found src) (ht : src.type = some t)
    (hc : collectorsGet t = some c)
    (hcol : env.collect c src manual = some skipSentinel) :
    (collect_by_source_id env sid manual).1 = some "Skipping source" ∧
    (collect_by_source_id env sid manual).2.filter Effect.isStatusUpdate = [] := by
  rw [collect_by_source_id_resolved manual hs ht hc, hcol]
  simp [skipSentinel, Effect.isStatusUpdate]

def envSkip : CollectorEnv where
  getSource := fun sid =>
    if sid = "s2" then .found { id := "s2", type := some "rss_collector" }
    else .notFound
  collect := fun _ _ _ => some "Last-Modified < Last-Attempted"
  preview := fun _ _ => ""

theorem skip_outcome_returns_skipping_witness :
    (collect_by_source_id envSkip "s2" false).1 = some "Skipping source" ∧
    (collect_by_source_id envSkip "s2" false).2.filter Effect.isStatusUpdate = [] :=
  skip_outcome_returns_skipping envSkip "s2" "rss_collector" "rss_collector"
    { id := "s2", type := some "rss_collector" } false rfl rfl (by decide) rfl

/-- C3: when the fetcher returns a (truthy) error outcome other than the
skip sentinel, dispatch issues exactly one status-update call — carrying
that message as the `"error"` body — and returns the message. -/
theorem error_outcome_reports_status (env : CollectorEnv)
    (sid t c m : String) (src : OSINTSource) (manual : Bool)
    (hs : env.getSource sid = .found src) (ht : src.type = some t)
    (hc : collectorsGet t = some c)
    (hcol : env.collect c src manual = some m)
    (hne : m ≠ "") (hskip : m ≠ skipSentinel) :
    (collect_by_source_id env sid manual).1 = some m ∧
    (collect_by_source_id env sid manual).2.filter Effect.isStatusUpdate =
      [Effect.updateStatus sid m] := by
  rw [collect_by_source_id_resolved manual hs ht hc, hcol]
  simp [hne, hskip, Effect.isStatusUpdate]

def envErr : CollectorEnv where
  getSource := fun sid =>
    if sid = "s5" then .found { id := "s5", type := some "rt_collector" }
    else .notFound
  collect := fun _ _ _ => some "parse error"
  preview := fun _ _ => ""

theorem error_outcome_reports_status_witness :
    (collect_by_source_id envErr "s5" false).1 = some "parse error" ∧
    (collect_by_source_id envErr "s5" false).2.filter Effect.isStatusUpdate =
      [Effect.updateStatus "s5" "parse error"] :=
  error_outcome_reports_status envErr "s5" "rt_collector" "rt_collector"
    "parse error" { id := "s5", type := some "rt_collector" } false rfl rfl
    (by decide) rfl (by decide) (by decide)

/-- C4 (amended): for a resolved source whose type tag is absent (or empty,
which Python treats the same) the dispatcher returns the
`"Source <id> has no collector_type"` error, and for a tag missing from the
registry it returns `"Collector <type> not implemented"`; in both cases it
makes no status-update call and invokes no fetcher, regardless of `manual`. -/
theorem unresolved_collector_terminal (env : CollectorEnv) (sid : String)
    (src : OSINTSource) (manual : Bool)
    (hs : env.getSource sid = .found src)
    (h : match src.type with
         | none => True
         | some t => t = "" ∨ collectorsGet t = none) :
    (collect_by_source_id env sid manual).1 =
      (match src.type with
       | none => some s!"Source {src.id} has no collector_type"
       | some t =>
           if t = "" then some s!"Source {src.id} has no collector_type"
           else some s!"Collector {t} not implemented") ∧
    (collect_by_source_id env sid manual).2.filter Effect.isStatusUpdate = [] ∧
    (collect_by_source_id env sid manual).2.filter Effect.isCollectCall = [] := by
  unfold collect_by_source_id
  rw [getSourceStep_found hs]
  cases ht : src.type with
  | none =>
      simp [getCollectorStep, ht, truthy, Effect.isStatusUpdate,
        Effect.isCollectCall]
  | some t =>
      rw [ht] at h
      cases h with
      | inl he =>
          subst he
          simp [getCollectorStep, ht, truthy, Effect.isStatusUpdate,
            Effect.isCollectCall]
      | inr hn =>
          by_cases he : t = ""
          · subst he
            simp [getCollectorStep, ht, truthy, Effect.isStatusUpdate,
              Effect.isCollectCall]
          · simp [getCollectorStep, ht, he, hn, truthy, Effect.isStatusUpdate,
              Effect.isCollectCall]

def envUnknownType : CollectorEnv where
  getSource := fun sid =>
    if sid = "s4" then .found { id := "s4", type := some "unknown_type" }
    else .notFound
  collect := fun _ _ _ => none
  preview := fun _ _ => ""

theorem unresolved_collector_terminal_witness :
    (collect_by_source_id envUnknownType "s4" true).1 =
      (match ({ id := "s4", type := some "unknown_type" } : OSINTSource).type with
       | none => some s!"Source s4 has no collector_type"
       | some t =>
           if t = "" then some s!"Source s4 has no collector_type"
           else some s!"Collector {t} not implemented") ∧
    (collect_by_source_id envUnknownType "s4" true).2.filter Effect.isStatusUpdate = [] ∧
    (collect_by_source_id envUnknownType "s4" true).2.filter Effect.isCollectCall = [] :=
  unresolved_collector_terminal envUnknownType "s4"
    { id := "s4", type := some "unknown_type" } true rfl (Or.inr (by decide))

def envAbsentType : CollectorEnv where
  getSource := fun _ => .found { id := "s4", type := none }
  collect := fun _ _ _ => none
  preview := fun _ _ => ""

/-- C4 counterexample: for a resolved source whose type tag is absent, the
dispatcher's message is `"Source s4 has no collector_type"`, which is not of
the `"Collector <type> not implemented"` form the claim asserts for this
case. -/
theorem absent_type_message_not_collector_not_implemented :
    (collect_by_source_id envAbsentType "s4" false).1 =
      some "Source s4 has no collector_type" ∧
    ∀ t : String,
      ("Source s4 has no collector_type" : String) ≠
        "Collector " ++ t ++ " not implemented" := by
  refine ⟨by decide, ?_⟩
  intro t h
  have hd := congrArg (fun s : String => s.data.head?) h
  simp only [String.data_append] at hd
  simp at hd

/-- C5: for a source id the control plane does not know, dispatch returns
the `"Source with id <id> not found"` failure, invokes no fetcher and makes
no status-update call. -/
theorem source_not_found_terminal (env : CollectorEnv) (sid : String)
    (manual : Bool) (h : env.getSource sid = .notFound) :
    (collect_by_source_id env sid manual).1 =
      some s!"Source with id {sid} not found" ∧
    (collect_by_source_id env sid manual).2.filter Effect.isCollectCall = [] ∧
    (collect_by_source_id env sid manual).2.filter Effect.isStatusUpdate = [] := by
  unfold collect_by_source_id
  rw [getSourceStep_notFound h]
  simp [Effect.isCollectCall, Effect.isStatusUpdate]

def envEmpty : CollectorEnv where
  getSource := fun _ => .notFound
  collect := fun _ _ _ => none
  preview := fun _ _ => ""

theorem source_not_found_terminal_witness :
    (collect_by_source_id envEmpty "s3" false).1 =
      some s!"Source with id s3 not found" ∧
    (collect_by_source_id envEmpty "s3" false).2.filter Effect.isCollectCall = [] ∧
    (collect_by_source_id envEmpty "s3" false).2.filter Effect.isStatusUpdate = [] :=
  source_not_found_terminal envEmpty "s3" false rfl

/-- C6: when the fetcher reports success, the collection task issues exactly
one downstream trigger (`run_post_collection_bots`) for the source, no
status-update call, and returns `"Succesfully collected source <id>"`. -/
theorem success_triggers_downstream (env : CollectorEnv)
    (sid t c : String) (src : OSINTSource) (manual : Bool)
    (hs : env.getSource sid = .found src) (ht : src.type = some t)
    (hc : collectorsGet t = some c)
    (hcol : env.collect c src manual = none) :
    (CollectorTask.run env sid manual).1 = s!"Succesfully collected source {sid}" ∧
    (CollectorTask.run env sid manual).2.filter Effect.isDownstreamTrigger =
      [Effect.runPostCollectionBots sid] ∧
    (CollectorTask.run env sid manual).2.filter Effect.isStatusUpdate = [] := by
  unfold CollectorTask.run
  rw [collect_by_source_id_resolved manual hs ht hc, hcol]
  simp [truthy, Effect.isDownstreamTrigger, Effect.isStatusUpdate]

def envSuccess : CollectorEnv where
  getSource := fun sid =>
    if sid = "s1" then .found { id := "s1", type := some "rss_collector" }
    else .notFound
  collect := fun _ _ _ => none
  preview := fun _ _ => ""

theorem success_triggers_downstream_witness :
    (CollectorTask.run envSuccess "s1" false).1 =
      s!"Succesfully collected source s1" ∧
    (CollectorTask.run envSuccess "s1" false).2.filter Effect.isDownstreamTrigger =
      [Effect.runPostCollectionBots "s1"] ∧
    (CollectorTask.run envSuccess "s1" false).2.filter Effect.isStatusUpdate = [] :=
  success_triggers_downstream envSuccess "s1" "rss_collector" "rss_collector"
    { id := "s1", type := some "rss_collector" } false rfl rfl (by decide) rfl

/-- C7: the preview task never issues a downstream trigger
(`run_post_collection_bots`), for any environment, source id and outcome. -/
theorem preview_never_triggers_downstream (env : CollectorEnv) (sid : String) :
    (collector_preview env sid).2.filter Effect.isDownstreamTrigger = [] := by
  unfold collector_preview getSourceStep
  cases hgs : env.getSource sid with
  | connectionError e => simp [Effect.isDownstreamTrigger]
  | notFound => simp [Effect.isDownstreamTrigger]
  | found source =>
      simp only [truthy]
      cases ht : source.type with
      | none => simp [getCollectorStep, ht, truthy, Effect.isDownstreamTrigger]
      | some t =>
          by_cases he : t = ""
          · simp [getCollectorStep, ht, he, truthy, Effect.isDownstreamTrigger]
          · cases hcg : collectorsGet t with
            | none =>
                simp [getCollectorStep, ht, he, hcg, truthy,
                  Effect.isDownstreamTrigger]
            | some c =>
                simp [getCollectorStep, ht, he, hcg, truthy,
                  Effect.isDownstreamTrigger]

/-- C8: the collection task is registered as `"collector_task"` with
`max_retries = 3`, a 60-second retry delay, a 60-second time limit, its
result ignored, and priority 5; the preview task is registered as
`"collector_preview"` with a 50-second time limit, start tracking, late
acknowledgment, and priority 8, which is strictly greater than the
collection task's priority. -/
theorem task_registration_attributes :
    CollectorTask.name = "collector_task" ∧
    CollectorTask.max_retries = 3 ∧
    CollectorTask.default_retry_delay = 60 ∧
    CollectorTask.time_limit = 60 ∧
    CollectorTask.ignore_result = true ∧
    CollectorTask.priority = 5 ∧
    collectorPreviewTask.name = "collector_preview" ∧
    collectorPreviewTask.time_limit = 50 ∧
    collectorPreviewTask.track_started = true ∧
    collectorPreviewTask.acks_late = true ∧
    collectorPreviewTask.priority = 8 ∧
    CollectorTask.priority < collectorPreviewTask.priority := by
  refine ⟨rfl, rfl, rfl, rfl, rfl, rfl, rfl, rfl, rfl, rfl, rfl, ?_⟩
  decide

/-- C9: `User.to_dict` never exposes a `"password"` key, although the
serialized base record does carry the stored (hashed) password column. -/
theorem to_dict_omits_password (u : User) :
    (User.to_dict u).lookup "password" = none ∧
    (baseToDict u).lookup "password" = some (.str u.password) := by
  constructor <;> rfl

/-- C10: when no `User` record exists for the username,
`BaseAuthenticator.generate_jwt` returns
`({"error": "Authentication failed"}, 401)` and performs no
`create_access_token` call; a token is thus created only when the lookup
succeeds. -/
theorem generate_jwt_unknown_user (env : AuthEnv) (username : String)
    (h : env.find username = none) :
    (generate_jwt env username).1 = ([("error", "Authentication failed")], 401) ∧
    (generate_jwt env username).2.filter AuthEffect.isCreateAccessToken = [] := by
  unfold generate_jwt
  rw [h]
  exact ⟨rfl, rfl⟩

def authEnvEmpty : AuthEnv where
  find := fun _ => none
  createToken := fun _ => "tok"

theorem generate_jwt_unknown_user_witness :
    (generate_jwt authEnvEmpty "alice").1 =
      ([("error", "Authentication failed")], 401) ∧
    (generate_jwt authEnvEmpty "alice").2.filter AuthEffect.isCreateAccessToken = [] :=
  generate_jwt_unknown_user authEnvEmpty "alice" rfl

end Taranis
